import Mathlib

/-!
Verification development for the track scheduling layer of the music-mixer
repository (`src/Track.ts`). The data model and operations below are a shallow
embedding of the TypeScript source: times are rationals, the mutable track
object becomes an explicit `TrackState` threaded through the operations, and
observable calls into collaborators (the swap sequencer, the stop routine, the
gain automation primitive, buffer-playback scheduling, console warnings) are
recorded as an explicit event trace returned alongside the new state.
-/

/-- Enumeration for track beat types (`TrackBeatType` in `src/Track.ts`). -/
inductive TrackBeatType where
  | REPEATING
  | PRECISE
  | EXCLUDE
deriving DecidableEq, Repr

/-- Enumeration for track event types (`TrackEventType` in `src/Track.ts`). -/
inductive TrackEventType where
  | START_PLAYBACK
  | STOP_PLAYBACK
  | BEAT
  | POSITION
  | SILENCED
deriving DecidableEq, Repr

/-- Enumeration for swap strategies (`TrackSwapType` in `src/Track.ts`). -/
inductive TrackSwapType where
  | IN_OUT
  | OUT_IN
  | CROSS
  | CUT
deriving DecidableEq, Repr

/-- Caller-supplied partial adjustment options (`AudioAdjustmentOptions`);
only the fields the scheduling code reads are modelled. Every field is
optional on the caller side. -/
structure AudioAdjustmentOptions where
  delay : Option ℚ
  duration : Option ℚ
deriving DecidableEq, Repr

/-- Fully merged adjustment options, the result of merging caller options
against a component default (`Required<AudioAdjustmentOptions>` plus the
swap strategy carried by swap defaults). -/
structure MergedOptions where
  delay : ℚ
  duration : ℚ
  swap : Option TrackSwapType
deriving DecidableEq, Repr

/-- A playback primitive (`AudioSourceNode`). Modelled by its identity and
its list of outgoing connection targets (audio-node ids). -/
structure SourceNode where
  id : Nat
  conns : List Nat
deriving DecidableEq, Repr

/-- Modelled from the spec: the `AudioSourceNode` constructor is not among the
sources (only `src/Track.ts` is). Per the spec a newly created playback
primitive is "linked to this track's gain node", so construction records the
destination as an outgoing connection. -/
def AudioSourceNode.construct (freshId : Nat) (destination : Nat) : SourceNode :=
  { id := freshId, conns := [destination] }

/-- Modelled from the spec: `AudioSourceNode.clone()` is not among the sources.
The spec lists `clone() -> primitive`, producing a fresh playback primitive
over the same buffer; it is modelled as a node with a fresh identity and no
outgoing connections. -/
def SourceNode.clone (_s : SourceNode) (freshId : Nat) : SourceNode :=
  { id := freshId, conns := [] }

/-- Modelled from the spec: `buildOptions` from `src/defaults.ts` is not among
the sources. Per the spec's AdjustmentMerger it "merges a caller-supplied
partial parameter set with component-level defaults": each caller field wins
when present, otherwise the default's field is used; fields the caller cannot
supply (the swap strategy) come from the default. -/
def buildOptions (options : Option AudioAdjustmentOptions) (dflt : MergedOptions) :
    MergedOptions :=
  { delay := (options.bind AudioAdjustmentOptions.delay).getD dflt.delay
    duration := (options.bind AudioAdjustmentOptions.duration).getD dflt.duration
    swap := dflt.swap }

/-- Modelled from the spec: `defaults.startImmediate` from `src/defaults.ts` is
not among the sources. The spec resolves the effective start delay as
`options.delay ?? delay ?? 0`, so the immediate-start default carries delay 0;
the ramp duration default is not fixed by the claims and is modelled as 0. -/
def startImmediate : MergedOptions :=
  { delay := 0, duration := 0, swap := none }

/-- Modelled from the spec: `defaults.trackSwapDefault` from `src/defaults.ts`
is not among the sources. Per the `Track.start` documentation it is "a default
OUT_IN swap"; the numeric defaults are not fixed by the claims. -/
def trackSwapDefault : MergedOptions :=
  { delay := 0, duration := 1, swap := some TrackSwapType.OUT_IN }

/-- A beat handle (`TrackBeat`): fire time and cancellation flag. -/
structure TrackBeat where
  time : ℚ
  isCancelled : Bool
deriving DecidableEq, Repr

/-- The stub `cancel` closure attached by `TrackSingle.createBeat` is
`() => {}`: it performs no mutation, so the handle is returned unchanged. -/
def TrackBeat.cancel (b : TrackBeat) : TrackBeat := b

/-- The mutable state of one `TrackSingle`: its name, its owned gain node
(identified by an audio-node id) and the gain node's current value, the
staged (`loadedSource`) and playing (`playingSource`) slots, the
`isLoadSourceCalled` flag, the clock reading `time` (the audio context's
`currentTime`), the destination node, and a fresh-id supply for newly
created audio nodes. -/
structure TrackState where
  name : String
  gainNodeId : Nat
  destination : Nat
  loadedSource : Option SourceNode
  playingSource : Option SourceNode
  isLoadSourceCalled : Bool
  gainValue : ℚ
  time : ℚ
  nextId : Nat
deriving DecidableEq, Repr

/-- Observable effects of track operations: calls into the stubbed
collaborators (`swap`, `stop`, `loadSource`, `createBeat`, `clearBeats`,
`syncPlayTo`, `syncStopTo`, `listenFor`), the warning branch of `start`,
direct gain writes, buffer-playback scheduling (`source.start(at)`), and the
gain automation call. -/
inductive TrackEvent where
  | swapCalled (options : Option MergedOptions)
  | stopCalled (delay : Option ℚ) (options : Option AudioAdjustmentOptions)
  | warned
  | gainSet (value : ℚ)
  | sourceStarted (id : Nat) (atTime : ℚ)
  | automationCalled (target : ℚ) (options : MergedOptions)
  | loadSourceCalled (path : String)
  | createBeatCalled (type : TrackBeatType) (origin : ℚ) (period : Option ℚ)
  | clearBeatsCalled
  | syncPlayToCalled (target : String) (options : Option AudioAdjustmentOptions)
  | syncStopToCalled (target : String) (options : Option AudioAdjustmentOptions)
  | listenForCalled (type : TrackEventType) (callback : Nat)
deriving DecidableEq, Repr

/-- The `TrackSingle` constructor: creates the gain node (fresh id), connects
it to the destination, and places the provided source in the staged slot.
The gain node's initial value 1 is the audio context's `createGain` default. -/
def TrackSingle.construct (name : String) (time : ℚ) (destination : Nat)
    (source : SourceNode) (gainId : Nat) (nextId : Nat) : TrackState :=
  { name := name
    gainNodeId := gainId
    destination := destination
    loadedSource := some source
    playingSource := none
    isLoadSourceCalled := false
    gainValue := 1
    time := time
    nextId := nextId }

/-- Embedding of `TrackSingle.swap` (a stub in the source: it only logs). The call itself
is the observable effect. -/
def TrackSingle.swap (st : TrackState) (options : Option MergedOptions) :
    TrackState × List TrackEvent :=
  (st, [TrackEvent.swapCalled options])

/-- Embedding of `TrackSingle.stop` (a stub in the source: it only logs). The call itself
is the observable effect. -/
def TrackSingle.stop (st : TrackState) (delay : Option ℚ)
    (options : Option AudioAdjustmentOptions) : TrackState × List TrackEvent :=
  (st, [TrackEvent.stopCalled delay options])

/-- The effective delay `options?.delay ?? delay ?? 0` used by `start`. -/
def effectiveDelay (delay : Option ℚ) (options : Option AudioAdjustmentOptions) : ℚ :=
  (options.bind AudioAdjustmentOptions.delay).getD (delay.getD 0)

/-- The start options of the plain-start branch of `TrackSingle.start`:
`buildOptions(options, defaults.startImmediate)`, then, when a positional
`delay` is given and `options.delay` is not, the positional delay is added
onto the default delay. -/
def adjustedStartOptions (delay : Option ℚ) (options : Option AudioAdjustmentOptions) :
    MergedOptions :=
  let base := buildOptions options startImmediate
  if delay.isSome && (options.bind AudioAdjustmentOptions.delay).isNone then
    { base with delay := base.delay + delay.getD 0 }
  else base

/-- First step of `TrackSingle.start`: if a source is playing and none is
staged, implicitly load a clone of the playing source and mark
`isLoadSourceCalled`. -/
def implicitClone (st : TrackState) : TrackState :=
  match st.playingSource, st.loadedSource with
  | some p, none =>
      { st with
          loadedSource := some (SourceNode.clone p st.nextId)
          nextId := st.nextId + 1
          isLoadSourceCalled := true }
  | _, _ => st

/-- Remainder of `TrackSingle.start` after the implicit-clone step: the swap
branch (guarded by `isLoadSourceCalled` and a staged source), the plain-start
branch (staged source present), or the warning branch. -/
def startRest (st : TrackState) (delay : Option ℚ)
    (options : Option AudioAdjustmentOptions) (duration : Option ℚ) :
    TrackState × List TrackEvent :=
  if st.isLoadSourceCalled && st.loadedSource.isSome then
    let swapOptions := buildOptions options trackSwapDefault
    let r1 := TrackSingle.swap st (some swapOptions)
    match duration with
    | some d =>
        let r2 := TrackSingle.stop r1.1 (some (effectiveDelay delay options + d)) none
        (r2.1, r1.2 ++ r2.2)
    | none => r1
  else
    match st.loadedSource with
    | some src =>
        let src2 : SourceNode := { src with conns := [st.gainNodeId] }
        let startOptions := adjustedStartOptions delay options
        let currentGain := st.gainValue
        let st2 := { st with
            loadedSource := none
            playingSource := some src2
            gainValue := 0 }
        let evs := [TrackEvent.gainSet 0,
                    TrackEvent.sourceStarted src2.id (st.time + startOptions.delay),
                    TrackEvent.automationCalled currentGain startOptions]
        match duration with
        | some d =>
            let r := TrackSingle.stop st2 (some (startOptions.delay + d)) none
            (r.1, evs ++ r.2)
        | none => (st2, evs)
    | none => (st, [TrackEvent.warned])

/-- Embedding of `TrackSingle.start(delay?, options?, duration?)`. -/
def TrackSingle.start (st : TrackState) (delay : Option ℚ)
    (options : Option AudioAdjustmentOptions) (duration : Option ℚ) :
    TrackState × List TrackEvent :=
  startRest (implicitClone st) delay options duration

/-- Embedding of `TrackSingle.loadSource(path)` (a stub in the source: it logs and returns
`new AudioSourceNode(this.audioContext, this.gainNode)` without touching the
staged slot or the `isLoadSourceCalled` flag). -/
def TrackSingle.loadSource (st : TrackState) (path : String) :
    TrackState × List TrackEvent × SourceNode :=
  ({ st with nextId := st.nextId + 1 },
   [TrackEvent.loadSourceCalled path],
   AudioSourceNode.construct st.nextId st.gainNodeId)

/-- Embedding of `TrackSingle.playSource(path, options?)`: loads the source, calls
`start(0, options)`, and returns the loaded source. -/
def TrackSingle.playSource (st : TrackState) (path : String)
    (options : Option AudioAdjustmentOptions) :
    TrackState × List TrackEvent × SourceNode :=
  let r := TrackSingle.loadSource st path
  let s := TrackSingle.start r.1 (some 0) options none
  (s.1, r.2.1 ++ s.2, r.2.2)

/-- Embedding of `TrackSingle.createBeat` (a stub in the source: it logs and returns
`{ time: 0, isCancelled: false, cancel: () => {} }`, storing no rule). -/
def TrackSingle.createBeat (st : TrackState) (type : TrackBeatType) (origin : ℚ)
    (period : Option ℚ) : TrackState × List TrackEvent × TrackBeat :=
  (st, [TrackEvent.createBeatCalled type origin period],
   { time := 0, isCancelled := false })

/-- Embedding of `TrackSingle.clearBeats` (a stub in the source: it only logs). -/
def TrackSingle.clearBeats (st : TrackState) : TrackState × List TrackEvent :=
  (st, [TrackEvent.clearBeatsCalled])

/-- Embedding of `TrackSingle.syncPlayTo` (a stub in the source: it only logs). -/
def TrackSingle.syncPlayTo (st : TrackState) (target : String)
    (options : Option AudioAdjustmentOptions) : TrackState × List TrackEvent :=
  (st, [TrackEvent.syncPlayToCalled target options])

/-- Embedding of `TrackSingle.syncStopTo` (a stub in the source: it only logs). -/
def TrackSingle.syncStopTo (st : TrackState) (target : String)
    (options : Option AudioAdjustmentOptions) : TrackState × List TrackEvent :=
  (st, [TrackEvent.syncStopToCalled target options])

/-- Embedding of `TrackSingle.listenFor` (a stub in the source: it only logs). The callback
is identified by an opaque id. -/
def TrackSingle.listenFor (st : TrackState) (type : TrackEventType) (callback : Nat) :
    TrackState × List TrackEvent :=
  (st, [TrackEvent.listenForCalled type callback])

/-- Association-list lookup used to model the group's `tracks` object
(`this.tracks[name]`). -/
def alistLookup (l : List (String × TrackState)) (k : String) : Option TrackState :=
  (l.find? (fun p => p.1 == k)).map Prod.snd

/-- Association-list update used to model `this.tracks[name] = track` on an
existing key. -/
def alistUpdate (l : List (String × TrackState)) (k : String) (v : TrackState) :
    List (String × TrackState) :=
  l.map (fun p => if p.1 == k then (k, v) else p)

/-- The state of a `TrackGroup`: its name, its owned gain node, the
destination it connects to, the name-to-track mapping (insertion-ordered, as
JavaScript string-keyed objects are), the clock reading, and a fresh-id
supply. -/
structure GroupState where
  name : String
  gainNodeId : Nat
  destination : Nat
  tracks : List (String × TrackState)
  time : ℚ
  nextId : Nat
deriving DecidableEq, Repr

/-- The `TrackGroup` constructor: creates the group gain node, connects it to
the destination, and registers the primary `TrackSingle` (same name as the
group, the group's gain node as its destination, the given source staged). -/
def TrackGroup.construct (name : String) (time : ℚ) (destination : Nat)
    (source : SourceNode) (nid : Nat) : GroupState :=
  { name := name
    gainNodeId := nid
    destination := destination
    tracks := [(name, TrackSingle.construct name time nid source (nid + 1) (nid + 2))]
    time := time
    nextId := nid + 2 }

/-- Embedding of `TrackGroup.track(name)`: lookup by name, absent value on a miss. -/
def TrackGroup.track (g : GroupState) (name : String) : Option TrackState :=
  alistLookup g.tracks name

/-- Embedding of `TrackGroup.primaryTrack()`: the member registered under the group's own
name. -/
def TrackGroup.primaryTrack (g : GroupState) : Option TrackState :=
  alistLookup g.tracks g.name

/-- Embedding of `TrackGroup.newTrack(name, path?, source?)`: throws on a name collision
with the group's own name or an existing member; otherwise constructs (or
accepts) an audio source and registers a new `TrackSingle` under `name`.
The `path` argument only feeds `audioSource.load(path)` on the freshly
created node, which is outside the modelled state. -/
def TrackGroup.newTrack (g : GroupState) (name : String) (_path : Option String)
    (source : Option SourceNode) : Except String (GroupState × TrackState) :=
  if name = g.name then
    Except.error "Cannot use name as it is the name of this group track"
  else if name ∈ g.tracks.map Prod.fst then
    Except.error "Cannot use name as it already exists in this group track"
  else
    match source with
    | some s =>
        let track := TrackSingle.construct name g.time g.gainNodeId s g.nextId (g.nextId + 1)
        Except.ok ({ g with tracks := g.tracks ++ [(name, track)], nextId := g.nextId + 1 },
                   track)
    | none =>
        let s := AudioSourceNode.construct g.nextId g.gainNodeId
        let track := TrackSingle.construct name g.time g.gainNodeId s (g.nextId + 1)
                       (g.nextId + 2)
        Except.ok ({ g with tracks := g.tracks ++ [(name, track)], nextId := g.nextId + 2 },
                   track)

/-- Embedding of `TrackGroup.start`: broadcasts `start` to every member, returning the
updated members and the per-member event trace. -/
def TrackGroup.start (g : GroupState) (delay : Option ℚ)
    (options : Option AudioAdjustmentOptions) (duration : Option ℚ) :
    GroupState × List (String × List TrackEvent) :=
  ({ g with tracks := g.tracks.map (fun p => (p.1, (TrackSingle.start p.2 delay options duration).1)) },
   g.tracks.map (fun p => (p.1, (TrackSingle.start p.2 delay options duration).2)))

/-- Embedding of `TrackGroup.stop`: broadcasts `stop` to every member. -/
def TrackGroup.stop (g : GroupState) (delay : Option ℚ)
    (options : Option AudioAdjustmentOptions) :
    GroupState × List (String × List TrackEvent) :=
  ({ g with tracks := g.tracks.map (fun p => (p.1, (TrackSingle.stop p.2 delay options).1)) },
   g.tracks.map (fun p => (p.1, (TrackSingle.stop p.2 delay options).2)))

/-- Embedding of `TrackGroup.clearBeats`: broadcasts `clearBeats` to every member. -/
def TrackGroup.clearBeats (g : GroupState) :
    GroupState × List (String × List TrackEvent) :=
  ({ g with tracks := g.tracks.map (fun p => (p.1, (TrackSingle.clearBeats p.2).1)) },
   g.tracks.map (fun p => (p.1, (TrackSingle.clearBeats p.2).2)))

/-- Embedding of `TrackGroup.syncPlayTo`: broadcasts `syncPlayTo` to every member. -/
def TrackGroup.syncPlayTo (g : GroupState) (target : String)
    (options : Option AudioAdjustmentOptions) :
    GroupState × List (String × List TrackEvent) :=
  ({ g with tracks := g.tracks.map (fun p => (p.1, (TrackSingle.syncPlayTo p.2 target options).1)) },
   g.tracks.map (fun p => (p.1, (TrackSingle.syncPlayTo p.2 target options).2)))

/-- Embedding of `TrackGroup.syncStopTo`: broadcasts `syncStopTo` to every member. -/
def TrackGroup.syncStopTo (g : GroupState) (target : String)
    (options : Option AudioAdjustmentOptions) :
    GroupState × List (String × List TrackEvent) :=
  ({ g with tracks := g.tracks.map (fun p => (p.1, (TrackSingle.syncStopTo p.2 target options).1)) },
   g.tracks.map (fun p => (p.1, (TrackSingle.syncStopTo p.2 target options).2)))

/-- Embedding of `TrackGroup.swap`: delegates to the primary track only. `none` models the
type error that raw JavaScript would produce were the primary deleted. -/
def TrackGroup.swap (g : GroupState) (options : Option MergedOptions) :
    Option (GroupState × List (String × List TrackEvent)) :=
  match TrackGroup.primaryTrack g with
  | some t =>
      let r := TrackSingle.swap t options
      some ({ g with tracks := alistUpdate g.tracks g.name r.1 }, [(g.name, r.2)])
  | none => none

/-- Embedding of `TrackGroup.loadSource`: delegates to the primary track only. -/
def TrackGroup.loadSource (g : GroupState) (path : String) :
    Option (GroupState × List (String × List TrackEvent) × SourceNode) :=
  match TrackGroup.primaryTrack g with
  | some t =>
      let r := TrackSingle.loadSource t path
      some ({ g with tracks := alistUpdate g.tracks g.name r.1 }, [(g.name, r.2.1)], r.2.2)
  | none => none

/-- Embedding of `TrackGroup.playSource`: delegates to the primary track only. -/
def TrackGroup.playSource (g : GroupState) (path : String)
    (options : Option AudioAdjustmentOptions) :
    Option (GroupState × List (String × List TrackEvent) × SourceNode) :=
  match TrackGroup.primaryTrack g with
  | some t =>
      let r := TrackSingle.playSource t path options
      some ({ g with tracks := alistUpdate g.tracks g.name r.1 }, [(g.name, r.2.1)], r.2.2)
  | none => none

/-- Embedding of `TrackGroup.createBeat`: delegates to the primary track only. -/
def TrackGroup.createBeat (g : GroupState) (type : TrackBeatType) (origin : ℚ)
    (period : Option ℚ) :
    Option (GroupState × List (String × List TrackEvent) × TrackBeat) :=
  match TrackGroup.primaryTrack g with
  | some t =>
      let r := TrackSingle.createBeat t type origin period
      some ({ g with tracks := alistUpdate g.tracks g.name r.1 }, [(g.name, r.2.1)], r.2.2)
  | none => none

/-- Embedding of `TrackGroup.listenFor`: delegates to the primary track only. -/
def TrackGroup.listenFor (g : GroupState) (type : TrackEventType) (callback : Nat) :
    Option (GroupState × List (String × List TrackEvent)) :=
  match TrackGroup.primaryTrack g with
  | some t =>
      let r := TrackSingle.listenFor t type callback
      some ({ g with tracks := alistUpdate g.tracks g.name r.1 }, [(g.name, r.2)])
  | none => none

/-! Helper lemmas. -/

theorem implicitClone_time (st : TrackState) : (implicitClone st).time = st.time := by
  unfold implicitClone
  split <;> rfl

theorem implicitClone_of_loaded (st : TrackState) (s : SourceNode)
    (h : st.loadedSource = some s) : implicitClone st = st := by
  unfold implicitClone
  split
  · simp_all
  · rfl

theorem implicitClone_of_no_playing (st : TrackState)
    (h : st.playingSource = none) : implicitClone st = st := by
  unfold implicitClone
  split
  · simp_all
  · rfl

theorem implicitClone_of_swap_setup (st : TrackState) (p : SourceNode)
    (hp : st.playingSource = some p) (hl : st.loadedSource = none) :
    implicitClone st =
      { st with
          loadedSource := some (SourceNode.clone p st.nextId)
          nextId := st.nextId + 1
          isLoadSourceCalled := true } := by
  unfold implicitClone
  split
  · simp_all
  · simp_all

theorem adjustedStartOptions_delay (d : Option ℚ) (o : Option AudioAdjustmentOptions) :
    (adjustedStartOptions d o).delay = effectiveDelay d o := by
  unfold adjustedStartOptions effectiveDelay buildOptions startImmediate
  rcases o with _ | o
  · rcases d with _ | dd <;> simp
  · rcases ho : o.delay with _ | x
    · rcases d with _ | dd <;> simp [Option.bind, ho]
    · rcases d with _ | dd <;> simp [Option.bind, ho]

theorem startRest_swap (st : TrackState) (d : Option ℚ)
    (o : Option AudioAdjustmentOptions) (u : Option ℚ)
    (h1 : st.isLoadSourceCalled = true) (h2 : st.loadedSource.isSome) :
    startRest st d o u =
      (st, TrackEvent.swapCalled (some (buildOptions o trackSwapDefault)) ::
        (match u with
         | some dur => [TrackEvent.stopCalled (some (effectiveDelay d o + dur)) none]
         | none => [])) := by
  unfold startRest
  rw [if_pos (by simp [h1, h2])]
  cases u <;> simp [TrackSingle.swap, TrackSingle.stop]

theorem startRest_plain (st : TrackState) (src : SourceNode) (d : Option ℚ)
    (o : Option AudioAdjustmentOptions) (u : Option ℚ)
    (h1 : st.isLoadSourceCalled = false) (hl : st.loadedSource = some src) :
    startRest st d o u =
      ({ st with
           loadedSource := none
           playingSource := some { src with conns := [st.gainNodeId] }
           gainValue := 0 },
       [TrackEvent.gainSet 0,
        TrackEvent.sourceStarted src.id (st.time + (adjustedStartOptions d o).delay),
        TrackEvent.automationCalled st.gainValue (adjustedStartOptions d o)] ++
       (match u with
        | some dur =>
            [TrackEvent.stopCalled (some ((adjustedStartOptions d o).delay + dur)) none]
        | none => [])) := by
  unfold startRest
  rw [if_neg (by simp [h1]), hl]
  cases u <;> simp [TrackSingle.stop]

theorem startRest_warn (st : TrackState) (d : Option ℚ)
    (o : Option AudioAdjustmentOptions) (u : Option ℚ)
    (hl : st.loadedSource = none) :
    startRest st d o u = (st, [TrackEvent.warned]) := by
  unfold startRest
  rw [if_neg (by simp [hl]), hl]

/-! Claim theorems and their witnesses. -/

/-- C1: for every call to `TrackSingle.start`, whenever buffer playback is
scheduled, it is scheduled at clock time `now + (options.delay ?? delay ?? 0)`
(`effectiveDelay`): an explicit `options.delay` wins over the positional
`delay` and the two are never summed. -/
theorem start_delay_precedence (st : TrackState) (d : Option ℚ)
    (o : Option AudioAdjustmentOptions) (u : Option ℚ) (i : Nat) (t : ℚ) :
    TrackEvent.sourceStarted i t ∈ (TrackSingle.start st d o u).2 →
    t = st.time + effectiveDelay d o := by
  intro hmem
  unfold TrackSingle.start at hmem
  have htime : (implicitClone st).time = st.time := implicitClone_time st
  by_cases hc : (implicitClone st).isLoadSourceCalled &&
      (implicitClone st).loadedSource.isSome
  · rcases Bool.and_eq_true_iff.mp hc with ⟨h1, h2⟩
    rw [startRest_swap _ d o u h1 h2] at hmem
    cases u <;> simp at hmem
  · cases hl : (implicitClone st).loadedSource with
    | none =>
        rw [startRest_warn _ d o u hl] at hmem
        simp at hmem
    | some src =>
        have h1 : (implicitClone st).isLoadSourceCalled = false := by
          rcases hb : (implicitClone st).isLoadSourceCalled with _ | _
          · rfl
          · exact absurd (by simp [hb, hl]) hc
        rw [startRest_plain _ src d o u h1 hl] at hmem
        rw [adjustedStartOptions_delay, htime] at hmem
        cases u <;> simp at hmem <;> exact hmem.2


theorem start_delay_precedence_witness :
    TrackEvent.sourceStarted 1 12 ∈
      (TrackSingle.start (TrackSingle.construct "music" 10 0 ⟨1, []⟩ 2 3) (some 5)
        (some ⟨some 2, none⟩) none).2 ∧
    (12 : ℚ) = (TrackSingle.construct "music" 10 0 (⟨1, []⟩ : SourceNode) 2 3).time +
      effectiveDelay (some 5) (some ⟨some 2, none⟩) := by
  have hmem : TrackEvent.sourceStarted 1 12 ∈
      (TrackSingle.start (TrackSingle.construct "music" 10 0 ⟨1, []⟩ 2 3) (some 5)
        (some ⟨some 2, none⟩) none).2 := by
    unfold TrackSingle.start
    rw [implicitClone_of_loaded _ ⟨1, []⟩ rfl]
    rw [startRest_plain _ ⟨1, []⟩ _ _ _ rfl rfl]
    simp [adjustedStartOptions_delay, effectiveDelay, TrackSingle.construct]
    norm_num
  exact ⟨hmem,
    start_delay_precedence (TrackSingle.construct "music" 10 0 ⟨1, []⟩ 2 3) (some 5)
      (some ⟨some 2, none⟩) none 1 12 hmem⟩

/-- C2 case-(a) fixture: a track with a playing source and an empty staged
slot. -/
def trackPlayingOnly : TrackState :=
  { name := "a", gainNodeId := 4, destination := 0, loadedSource := none,
    playingSource := some ⟨7, [4]⟩, isLoadSourceCalled := false, gainValue := 1,
    time := 0, nextId := 9 }

/-- C2 case-(b) fixture: a track with a staged source recorded through the
load-source flag. -/
def trackStagedFlagged : TrackState :=
  { name := "b", gainNodeId := 4, destination := 0, loadedSource := some ⟨8, [4]⟩,
    playingSource := none, isLoadSourceCalled := true, gainValue := 1,
    time := 0, nextId := 9 }

/-- C2 case-(c) fixture: a track with neither a staged nor a playing source. -/
def trackEmpty : TrackState :=
  { name := "c", gainNodeId := 4, destination := 0, loadedSource := none,
    playingSource := none, isLoadSourceCalled := false, gainValue := 1,
    time := 0, nextId := 9 }

/-- C2: `TrackSingle.start` dispatches among three cases in order: (a) a
playing source and no staged one → the playing source is cloned into the
staged slot (flag set) and the swap path runs; (b) a staged source recorded
by the load-source flag → options are normalized against the swap defaults,
`swap` is invoked, and a `stop` at `effectiveDelay + duration` is scheduled
when a duration is given; (c) no staged and no playing source → a warning
no-op. -/
theorem start_three_cases (st : TrackState) (d : Option ℚ)
    (o : Option AudioAdjustmentOptions) (u : Option ℚ) :
    (∀ p, st.playingSource = some p → st.loadedSource = none →
        (TrackSingle.start st d o u).1.loadedSource =
            some (SourceNode.clone p st.nextId) ∧
        (TrackSingle.start st d o u).1.isLoadSourceCalled = true ∧
        TrackEvent.swapCalled (some (buildOptions o trackSwapDefault)) ∈
          (TrackSingle.start st d o u).2) ∧
    (st.isLoadSourceCalled = true → st.loadedSource.isSome →
        TrackSingle.start st d o u =
          (st, TrackEvent.swapCalled (some (buildOptions o trackSwapDefault)) ::
            (match u with
             | some dur => [TrackEvent.stopCalled (some (effectiveDelay d o + dur)) none]
             | none => []))) ∧
    (st.loadedSource = none → st.playingSource = none →
        TrackSingle.start st d o u = (st, [TrackEvent.warned])) := by
  refine ⟨?_, ?_, ?_⟩
  · intro p hp hl
    have h2 := startRest_swap
      { st with
          loadedSource := some (SourceNode.clone p st.nextId)
          nextId := st.nextId + 1
          isLoadSourceCalled := true } d o u rfl rfl
    rw [TrackSingle.start, implicitClone_of_swap_setup st p hp hl, h2]
    refine ⟨rfl, rfl, ?_⟩
    cases u <;> simp
  · intro hflag hsome
    obtain ⟨s, hs⟩ := Option.isSome_iff_exists.mp hsome
    rw [TrackSingle.start, implicitClone_of_loaded st s hs]
    exact startRest_swap st d o u hflag hsome
  · intro hl hp
    rw [TrackSingle.start, implicitClone_of_no_playing st hp]
    exact startRest_warn st d o u hl

/-- C2 witness: the three cases at concrete tracks. -/
theorem start_three_cases_witness :
    ((TrackSingle.start trackPlayingOnly none none none).1.loadedSource =
        some (SourceNode.clone ⟨7, [4]⟩ trackPlayingOnly.nextId) ∧
     (TrackSingle.start trackPlayingOnly none none none).1.isLoadSourceCalled = true ∧
     TrackEvent.swapCalled (some (buildOptions none trackSwapDefault)) ∈
       (TrackSingle.start trackPlayingOnly none none none).2) ∧
    (TrackSingle.start trackStagedFlagged none none (some 3) =
      (trackStagedFlagged,
       TrackEvent.swapCalled (some (buildOptions none trackSwapDefault)) ::
         [TrackEvent.stopCalled (some (effectiveDelay none none + 3)) none])) ∧
    (TrackSingle.start trackEmpty none none none = (trackEmpty, [TrackEvent.warned])) :=
  ⟨(start_three_cases trackPlayingOnly none none none).1 ⟨7, [4]⟩ rfl rfl,
   (start_three_cases trackStagedFlagged none none (some 3)).2.1 rfl rfl,
   (start_three_cases trackEmpty none none none).2.2 rfl rfl⟩

/-- C3: directly starting a staged source (load-source flag unset) moves it
staged→playing with its outgoing connections replaced by the track's gain
node, empties the staged slot, zeroes the gain after snapshotting it,
schedules buffer playback at `clockNow + effectiveDelay`, and ramps the gain
back to the snapshot using the merged adjustment; the events occur in that
order. -/
theorem start_plain_sequence (st : TrackState) (src : SourceNode) (d : Option ℚ)
    (o : Option AudioAdjustmentOptions) (u : Option ℚ)
    (hflag : st.isLoadSourceCalled = false) (hl : st.loadedSource = some src) :
    (TrackSingle.start st d o u).1 =
      { st with
          loadedSource := none
          playingSource := some { src with conns := [st.gainNodeId] }
          gainValue := 0 } ∧
    (TrackSingle.start st d o u).2 =
      [TrackEvent.gainSet 0,
       TrackEvent.sourceStarted src.id (st.time + effectiveDelay d o),
       TrackEvent.automationCalled st.gainValue (adjustedStartOptions d o)] ++
      (match u with
       | some dur => [TrackEvent.stopCalled (some (effectiveDelay d o + dur)) none]
       | none => []) := by
  rw [TrackSingle.start, implicitClone_of_loaded st src hl,
      startRest_plain st src d o u hflag hl, adjustedStartOptions_delay]
  exact ⟨rfl, rfl⟩

/-- C3 witness: the full plain-start sequence at a concrete fresh track with
positional delay 3 and duration 2. -/
theorem start_plain_sequence_witness :
    (TrackSingle.start (TrackSingle.construct "m" 4 0 ⟨5, [9]⟩ 6 7) (some 3) none
        (some 2)).1 =
      { TrackSingle.construct "m" 4 0 ⟨5, [9]⟩ 6 7 with
          loadedSource := none
          playingSource := some ⟨5, [6]⟩
          gainValue := 0 } ∧
    (TrackSingle.start (TrackSingle.construct "m" 4 0 ⟨5, [9]⟩ 6 7) (some 3) none
        (some 2)).2 =
      [TrackEvent.gainSet 0,
       TrackEvent.sourceStarted 5
         ((TrackSingle.construct "m" 4 0 ⟨5, [9]⟩ 6 7).time +
           effectiveDelay (some 3) none),
       TrackEvent.automationCalled 1 (adjustedStartOptions (some 3) none)] ++
      [TrackEvent.stopCalled (some (effectiveDelay (some 3) none + 2)) none] :=
  start_plain_sequence (TrackSingle.construct "m" 4 0 ⟨5, [9]⟩ 6 7) ⟨5, [9]⟩ (some 3)
    none (some 2) rfl rfl

/-- The spec's description of `playSource`: `loadSource(path)` immediately
followed by `start(0, options)`, returning the source that `loadSource`
produced. -/
def playSourceSpec (st : TrackState) (path : String)
    (options : Option AudioAdjustmentOptions) :
    TrackState × List TrackEvent × SourceNode :=
  let loaded := TrackSingle.loadSource st path
  let started := TrackSingle.start loaded.1 (some 0) options none
  (started.1, loaded.2.1 ++ started.2, loaded.2.2)

/-- C4: `TrackSingle.playSource` behaves identically to `loadSource` followed
by `start(0, options)` and returns the source produced by `loadSource`. -/
theorem playSource_is_load_then_start (st : TrackState) (path : String)
    (o : Option AudioAdjustmentOptions) :
    TrackSingle.playSource st path o = playSourceSpec st path o ∧
    (TrackSingle.playSource st path o).2.2 = (TrackSingle.loadSource st path).2.2 :=
  ⟨rfl, rfl⟩

/-- C5 (code bug): `TrackSingle.loadSource` is a stub. On a fresh track whose
constructor staged source `⟨1, []⟩`, `loadSource("next.ogg")` leaves the staged
slot holding the constructor source, leaves the load-source flag false, and
returns a node that is not the staged one — contradicting its own
documentation ("calling start() will play the last loaded audio source"). -/
theorem loadSource_stub_leaves_staged_slot :
    (TrackSingle.loadSource (TrackSingle.construct "music" 0 0 ⟨1, []⟩ 2 3)
        "next.ogg").1.loadedSource = some ⟨1, []⟩ ∧
    (TrackSingle.loadSource (TrackSingle.construct "music" 0 0 ⟨1, []⟩ 2 3)
        "next.ogg").1.isLoadSourceCalled = false ∧
    (TrackSingle.loadSource (TrackSingle.construct "music" 0 0 ⟨1, []⟩ 2 3)
        "next.ogg").2.2 ≠ (⟨1, []⟩ : SourceNode) := by
  refine ⟨rfl, rfl, ?_⟩
  decide

/-- C6 (code bug): `TrackSingle.createBeat` is a stub. For a REPEATING rule
with origin 0 and period 1 queried at clock time 5/2, the next fire time
demanded by the claim is 3 (the least `0 + k·1 > 5/2`), but the returned
handle's `time` is 0 — not even greater than the query time. -/
theorem createBeat_stub_ignores_repeating_rule :
    (TrackSingle.createBeat (TrackSingle.construct "music" (5 / 2) 0 ⟨1, []⟩ 2 3)
        TrackBeatType.REPEATING 0 (some 1)).2.2.time = 0 ∧
    ¬ ((5 / 2 : ℚ) <
        (TrackSingle.createBeat (TrackSingle.construct "music" (5 / 2) 0 ⟨1, []⟩ 2 3)
          TrackBeatType.REPEATING 0 (some 1)).2.2.time) := by
  refine ⟨rfl, ?_⟩
  show ¬ ((5 / 2 : ℚ) < 0)
  norm_num

/-- C7 (code bug): the `cancel` closure on a created beat handle is a no-op,
so `isCancelled` stays false, and `TrackSingle.clearBeats` leaves the track
state entirely unchanged — contradicting the documented "clears all beats on
this track and cancels them". -/
theorem beat_cancel_and_clearBeats_stubs_no_op :
    (TrackSingle.createBeat (TrackSingle.construct "music" 0 0 ⟨1, []⟩ 2 3)
        TrackBeatType.PRECISE 1 none).2.2.cancel.isCancelled = false ∧
    (TrackSingle.clearBeats (TrackSingle.construct "music" 0 0 ⟨1, []⟩ 2 3)).1 =
      TrackSingle.construct "music" 0 0 ⟨1, []⟩ 2 3 :=
  ⟨rfl, rfl⟩

theorem alistLookup_append_self (l : List (String × TrackState)) (k : String)
    (v : TrackState) (h : k ∉ l.map Prod.fst) :
    alistLookup (l ++ [(k, v)]) k = some v := by
  unfold alistLookup
  have h1 : l.find? (fun p => p.1 == k) = none := by
    apply List.find?_eq_none.mpr
    intro p hp
    simp only [beq_iff_eq]
    intro hq
    exact absurd (List.mem_map.mpr ⟨p, hp, hq⟩) h
  simp [List.find?_append, h1, List.find?]

theorem alistUpdate_mem_of_ne (l : List (String × TrackState)) (k : String)
    (v : TrackState) : ∀ p ∈ alistUpdate l k v, p.1 ≠ k → p ∈ l := by
  intro p hp hne
  unfold alistUpdate at hp
  rcases List.mem_map.mp hp with ⟨q, hq, heq⟩
  by_cases hqk : (q.1 == k) = true
  · rw [if_pos hqk] at heq
    rw [← heq] at hne
    exact absurd rfl hne
  · rw [if_neg hqk] at heq
    rw [← heq]
    exact hq

/-- C8: `TrackGroup.newTrack` errors (creating nothing, mapping unchanged) on
a collision with the group's own name or an existing member, and for a
non-colliding name registers a freshly constructed track under it. -/
theorem newTrack_name_collision (g : GroupState) (name : String)
    (path : Option String) (source : Option SourceNode) :
    ((name = g.name ∨ name ∈ g.tracks.map Prod.fst) →
        ∃ msg, TrackGroup.newTrack g name path source = Except.error msg) ∧
    (name ≠ g.name → name ∉ g.tracks.map Prod.fst →
        ∃ g2 t, TrackGroup.newTrack g name path source = Except.ok (g2, t) ∧
          g2.tracks = g.tracks ++ [(name, t)] ∧
          TrackGroup.track g2 name = some t) := by
  constructor
  · intro hcol
    unfold TrackGroup.newTrack
    by_cases h1 : name = g.name
    · rw [if_pos h1]
      exact ⟨_, rfl⟩
    · have h2 : name ∈ g.tracks.map Prod.fst := hcol.resolve_left h1
      rw [if_neg h1, if_pos h2]
      exact ⟨_, rfl⟩
  · intro h1 h2
    unfold TrackGroup.newTrack
    rw [if_neg h1, if_neg h2]
    cases source with
    | some s =>
        refine ⟨_, _, rfl, rfl, ?_⟩
        exact alistLookup_append_self g.tracks name _ h2
    | none =>
        refine ⟨_, _, rfl, rfl, ?_⟩
        exact alistLookup_append_self g.tracks name _ h2

/-- A concrete group fixture: `TrackGroup.construct` registers the primary
track under the group's own name. -/
def groupW : GroupState := TrackGroup.construct "bgm" 0 0 ⟨1, []⟩ 2

/-- The primary track of `groupW`, as `TrackGroup.construct` builds it. -/
def primaryW : TrackState := TrackSingle.construct "bgm" 0 2 ⟨1, []⟩ 3 4

/-- C8 witness: on `groupW`, reusing the group's name fails, and the fresh
name "drums" succeeds and is registered. -/
theorem newTrack_name_collision_witness :
    (∃ msg, TrackGroup.newTrack groupW "bgm" none none = Except.error msg) ∧
    (∃ g2 t, TrackGroup.newTrack groupW "drums" none none = Except.ok (g2, t) ∧
        g2.tracks = groupW.tracks ++ [("drums", t)] ∧
        TrackGroup.track g2 "drums" = some t) :=
  ⟨(newTrack_name_collision groupW "bgm" none none).1 (Or.inl rfl),
   (newTrack_name_collision groupW "drums" none none).2 (by decide) (by decide)⟩

/-- The content of claim C9, for a group whose primary track is `t`: the five
broadcast operations invoke the member operation on every member (same names,
same order, member results), while the five delegated operations invoke the
member operation on the primary track and on no other member (their trace
names only the group's own name, their state update only at the primary
key). -/
def BroadcastDelegateSpec (g : GroupState) (t : TrackState) (d : Option ℚ)
    (o : Option AudioAdjustmentOptions) (u : Option ℚ) (mo : Option MergedOptions)
    (path : String) (ty : TrackBeatType) (origin : ℚ) (period : Option ℚ)
    (ety : TrackEventType) (cb : Nat) (tgt : String) : Prop :=
  ((TrackGroup.start g d o u).2 =
      g.tracks.map (fun p => (p.1, (TrackSingle.start p.2 d o u).2)) ∧
   (TrackGroup.start g d o u).1.tracks =
      g.tracks.map (fun p => (p.1, (TrackSingle.start p.2 d o u).1)) ∧
   (TrackGroup.stop g d o).2 =
      g.tracks.map (fun p => (p.1, (TrackSingle.stop p.2 d o).2)) ∧
   (TrackGroup.clearBeats g).2 =
      g.tracks.map (fun p => (p.1, (TrackSingle.clearBeats p.2).2)) ∧
   (TrackGroup.syncPlayTo g tgt o).2 =
      g.tracks.map (fun p => (p.1, (TrackSingle.syncPlayTo p.2 tgt o).2)) ∧
   (TrackGroup.syncStopTo g tgt o).2 =
      g.tracks.map (fun p => (p.1, (TrackSingle.syncStopTo p.2 tgt o).2))) ∧
  (TrackGroup.swap g mo = some
      ({ g with tracks := alistUpdate g.tracks g.name (TrackSingle.swap t mo).1 },
       [(g.name, (TrackSingle.swap t mo).2)]) ∧
   TrackGroup.loadSource g path = some
      ({ g with tracks := alistUpdate g.tracks g.name (TrackSingle.loadSource t path).1 },
       [(g.name, (TrackSingle.loadSource t path).2.1)],
       (TrackSingle.loadSource t path).2.2) ∧
   TrackGroup.playSource g path o = some
      ({ g with tracks := alistUpdate g.tracks g.name (TrackSingle.playSource t path o).1 },
       [(g.name, (TrackSingle.playSource t path o).2.1)],
       (TrackSingle.playSource t path o).2.2) ∧
   TrackGroup.createBeat g ty origin period = some
      ({ g with
           tracks := alistUpdate g.tracks g.name
             (TrackSingle.createBeat t ty origin period).1 },
       [(g.name, (TrackSingle.createBeat t ty origin period).2.1)],
       (TrackSingle.createBeat t ty origin period).2.2) ∧
   TrackGroup.listenFor g ety cb = some
      ({ g with tracks := alistUpdate g.tracks g.name (TrackSingle.listenFor t ety cb).1 },
       [(g.name, (TrackSingle.listenFor t ety cb).2)])) ∧
  (∀ v, ∀ p ∈ alistUpdate g.tracks g.name v, p.1 ≠ g.name → p ∈ g.tracks)

/-- C9: on a `TrackGroup`, `start`, `stop`, `clearBeats`, `syncPlayTo` and
`syncStopTo` broadcast the member operation to every member track, while
`swap`, `loadSource`, `playSource`, `createBeat` and `listenFor` delegate to
the primary track only, leaving every other member untouched. -/
theorem group_broadcast_delegate (g : GroupState) (t : TrackState) (d : Option ℚ)
    (o : Option AudioAdjustmentOptions) (u : Option ℚ) (mo : Option MergedOptions)
    (path : String) (ty : TrackBeatType) (origin : ℚ) (period : Option ℚ)
    (ety : TrackEventType) (cb : Nat) (tgt : String)
    (h : TrackGroup.primaryTrack g = some t) :
    BroadcastDelegateSpec g t d o u mo path ty origin period ety cb tgt := by
  refine ⟨⟨rfl, rfl, rfl, rfl, rfl, rfl⟩, ?_, fun v => alistUpdate_mem_of_ne g.tracks g.name v⟩
  unfold TrackGroup.swap TrackGroup.loadSource TrackGroup.playSource
    TrackGroup.createBeat TrackGroup.listenFor
  rw [h]
  exact ⟨rfl, rfl, rfl, rfl, rfl⟩

/-- C9 witness: the broadcast/delegate contract at the concrete group
`groupW`, whose primary track is `primaryW`. -/
theorem group_broadcast_delegate_witness :
    TrackGroup.primaryTrack groupW = some primaryW ∧
    BroadcastDelegateSpec groupW primaryW (some 1) none none none "p.ogg"
      TrackBeatType.REPEATING 0 (some 1) TrackEventType.BEAT 5 "other" :=
  ⟨rfl,
   group_broadcast_delegate groupW primaryW (some 1) none none none "p.ogg"
     TrackBeatType.REPEATING 0 (some 1) TrackEventType.BEAT 5 "other" rfl⟩

/-- C10: a freshly constructed `TrackSingle` stages the constructor source
with the load-source flag false and nothing playing; whenever the flag is
false and a source is staged, `start` never invokes `swap` and schedules
playback of the staged source (the plain-start path); whenever the flag is
true and a source is staged, `start` invokes `swap` — the swap path is gated
on the flag, not merely on a staged source existing. -/
theorem fresh_track_plain_start_gate (nm : String) (tm : ℚ) (dest : Nat)
    (src : SourceNode) (gid nid : Nat) (st : TrackState) (s : SourceNode)
    (d : Option ℚ) (o : Option AudioAdjustmentOptions) (u : Option ℚ) :
    ((TrackSingle.construct nm tm dest src gid nid).loadedSource = some src ∧
     (TrackSingle.construct nm tm dest src gid nid).isLoadSourceCalled = false ∧
     (TrackSingle.construct nm tm dest src gid nid).playingSource = none) ∧
    (st.isLoadSourceCalled = false → st.loadedSource = some s →
      (∀ w, TrackEvent.swapCalled w ∉ (TrackSingle.start st d o u).2) ∧
      TrackEvent.sourceStarted s.id (st.time + effectiveDelay d o) ∈
        (TrackSingle.start st d o u).2) ∧
    (st.isLoadSourceCalled = true → st.loadedSource = some s →
      TrackEvent.swapCalled (some (buildOptions o trackSwapDefault)) ∈
        (TrackSingle.start st d o u).2) := by
  refine ⟨⟨rfl, rfl, rfl⟩, ?_, ?_⟩
  · intro hflag hl
    rw [TrackSingle.start, implicitClone_of_loaded st s hl,
        startRest_plain st s d o u hflag hl, adjustedStartOptions_delay]
    constructor
    · intro w
      cases u <;> simp
    · cases u <;> simp
  · intro hflag hl
    rw [TrackSingle.start, implicitClone_of_loaded st s hl,
        startRest_swap st d o u hflag (by simp [hl])]
    cases u <;> simp

/-- C10 witness: the fresh-track facts, the plain-start behaviour on the
fresh track, and the swap gating once the flag is set. -/
theorem fresh_track_plain_start_gate_witness :
    ((TrackSingle.construct "fresh" 0 0 ⟨1, []⟩ 2 3).loadedSource = some ⟨1, []⟩ ∧
     (TrackSingle.construct "fresh" 0 0 ⟨1, []⟩ 2 3).isLoadSourceCalled = false ∧
     (TrackSingle.construct "fresh" 0 0 ⟨1, []⟩ 2 3).playingSource = none) ∧
    ((∀ w, TrackEvent.swapCalled w ∉
        (TrackSingle.start (TrackSingle.construct "fresh" 0 0 ⟨1, []⟩ 2 3)
          none none none).2) ∧
     TrackEvent.sourceStarted 1
        ((TrackSingle.construct "fresh" 0 0 ⟨1, []⟩ 2 3).time +
          effectiveDelay none none) ∈
        (TrackSingle.start (TrackSingle.construct "fresh" 0 0 ⟨1, []⟩ 2 3)
          none none none).2) ∧
    TrackEvent.swapCalled (some (buildOptions none trackSwapDefault)) ∈
      (TrackSingle.start
        { TrackSingle.construct "fresh" 0 0 ⟨1, []⟩ 2 3 with isLoadSourceCalled := true }
        none none none).2 :=
  ⟨(fresh_track_plain_start_gate "fresh" 0 0 ⟨1, []⟩ 2 3
      (TrackSingle.construct "fresh" 0 0 ⟨1, []⟩ 2 3) ⟨1, []⟩ none none none).1,
   (fresh_track_plain_start_gate "fresh" 0 0 ⟨1, []⟩ 2 3
      (TrackSingle.construct "fresh" 0 0 ⟨1, []⟩ 2 3) ⟨1, []⟩ none none none).2.1 rfl rfl,
   (fresh_track_plain_start_gate "fresh" 0 0 ⟨1, []⟩ 2 3
      { TrackSingle.construct "fresh" 0 0 ⟨1, []⟩ 2 3 with isLoadSourceCalled := true }
      ⟨1, []⟩ none none none).2.2 rfl rfl⟩
